import Mathlib

/-!
Shallow embedding of the Mergington High School activities service
(src/src/app.py and src/src/models.py), as the program actually
executes.

The relational store is explicit state: a list of Activity rows, a list
of Enrollment rows, and the autoincrement counters for the surrogate
primary keys.

Two defects of the source are part of the embedding, because they
dominate the observable behavior:

* src/src/app.py applies the name `select` (lines 123, 125, 140, 144,
  161, 165) but never brings it into the module namespace: its only
  imports are FastAPI, HTTPException, StaticFiles, RedirectResponse,
  os, Path, and — from src.models — create_db_and_tables, get_session,
  Activity, Enrollment (lines 8-19).  Python resolves names at call
  time, so every signup and unregister request raises
  `NameError: name 'select' is not defined` before any validation or
  database write; FastAPI surfaces an uncaught exception as HTTP 500.
  The handlers therefore model name resolution first and reach the
  404/400/ok pipeline of the body only if `select` resolves — which it
  never does.

* src/src/app.py line 90 passes the raw string
  `"SELECT COUNT(*) FROM activity"` to `session.exec`.  Under
  SQLAlchemy 2.x this raises `ArgumentError` ("Textual SQL expression
  should be explicitly declared as text(...)") before anything else
  runs; under the legacy 1.4 path it returns a `Row`, and line 91
  compares that Row to the int 0 — in Python a tuple-like never equals
  an int, so the comparison is always False and the seed branch (lines
  92-105) is skipped.  On no library version does the function insert a
  row.  Both behaviors are modelled, indexed by `SqlAlchemyBehavior`.

A raised `HTTPException` and an uncaught Python exception are both
`Except.error` values of `PyException`; either leaves the state
unchanged, mirroring the fact that the Python code raises before any
`session.add` / `session.delete`.
-/

set_option autoImplicit false

namespace MergingtonApi

/-- The `Activity` table row of src/src/models.py: surrogate integer
primary key, unique indexed `name`, free-text `description` and
`schedule`, integer `max_participants`. -/
structure Activity where
  id : Nat
  name : String
  description : String
  schedule : String
  max_participants : Nat
deriving Repr, DecidableEq

/-- The `Enrollment` table row of src/src/models.py: surrogate integer
primary key, `activity_id` foreign key into `activity.id`, indexed
free-text `email`. -/
structure Enrollment where
  id : Nat
  activity_id : Nat
  email : String
deriving Repr, DecidableEq

/-- Column-level constraints that the SQLModel `Field(...)` declarations
of src/src/models.py attach to a column. -/
inductive FieldConstraint where
  | primaryKey
  | uniqueCol
  | indexedCol
  | foreignKey (target : String)
deriving Repr, DecidableEq

/-- The schema of the `activity` table, read off the `Field` keyword
arguments in src/src/models.py (lines 5-10). -/
def Activity.schemaFields : List (String × List FieldConstraint) :=
  [("id", [.primaryKey]),
   ("name", [.indexedCol, .uniqueCol]),
   ("description", []),
   ("schedule", []),
   ("max_participants", [])]

/-- The schema of the `enrollment` table, read off the `Field` keyword
arguments in src/src/models.py (lines 13-16).  Note: no `unique=True`
anywhere, and no table-level compound constraint is declared. -/
def Enrollment.schemaFields : List (String × List FieldConstraint) :=
  [("id", [.primaryKey]),
   ("activity_id", [.foreignKey ("activity.id")]),
   ("email", [.indexedCol])]

/-- The persistent store: the two tables plus the autoincrement
counters the engine uses to assign fresh primary keys. -/
structure Store where
  activities : List Activity
  enrollments : List Enrollment
  nextActivityId : Nat
  nextEnrollmentId : Nat
deriving Repr, DecidableEq

/-- A fresh SQLite database: both tables empty, autoincrement starting
at 1. -/
def emptyStore : Store := ⟨[], [], 1, 1⟩

/-- `raise HTTPException(status_code=..., detail=...)`. -/
structure HTTPException where
  status_code : Nat
  detail : String
deriving Repr, DecidableEq

/-- An exception escaping a request handler.  FastAPI maps a raised
`HTTPException` to its own status code and detail, and any other
uncaught Python exception — a `NameError` from an unresolved name, an
`ArgumentError` from SQLAlchemy — to an HTTP 500 response. -/
inductive PyException where
  | http (e : HTTPException)
  | nameError (name : String)
  | argumentError (detail : String)
deriving Repr, DecidableEq

/-- The module-level names of src/src/app.py: the names its own
`from`/`plain` imports bind (lines 8-19) and the module's own
definitions (lines 21, 25, 30, 88, 109, 115, 120, 137, 158).
`select` is not among them — src.models imports it from sqlmodel, but
app.py does not re-import it — so the uses of `select` inside the
handlers fail name resolution at call time. -/
def app_module_globals : List String :=
  ["FastAPI", "HTTPException", "StaticFiles", "RedirectResponse", "os",
   "Path", "create_db_and_tables", "get_session", "Activity",
   "Enrollment", "app", "current_dir", "_seed_activities",
   "_seed_db_if_empty", "on_startup", "root", "get_activities",
   "signup_for_activity", "unregister_from_activity"]

/-- One entry of the `_seed_activities` dict of src/src/app.py. -/
structure SeedEntry where
  name : String
  description : String
  schedule : String
  max_participants : Nat
  participants : List String
deriving Repr, DecidableEq

/-- The `_seed_activities` dict of src/src/app.py (lines 30-85), in
insertion order (Python dicts iterate in insertion order). -/
def _seed_activities : List SeedEntry :=
  [⟨"Chess Club",
    "Learn strategies and compete in chess tournaments",
    "Fridays, 3:30 PM - 5:00 PM", 12,
    ["michael@mergington.edu", "daniel@mergington.edu"]⟩,
   ⟨"Programming Class",
    "Learn programming fundamentals and build software projects",
    "Tuesdays and Thursdays, 3:30 PM - 4:30 PM", 20,
    ["emma@mergington.edu", "sophia@mergington.edu"]⟩,
   ⟨"Gym Class",
    "Physical education and sports activities",
    "Mondays, Wednesdays, Fridays, 2:00 PM - 3:00 PM", 30,
    ["john@mergington.edu", "olivia@mergington.edu"]⟩,
   ⟨"Soccer Team",
    "Join the school soccer team and compete in matches",
    "Tuesdays and Thursdays, 4:00 PM - 5:30 PM", 22,
    ["liam@mergington.edu", "noah@mergington.edu"]⟩,
   ⟨"Basketball Team",
    "Practice and play basketball with the school team",
    "Wednesdays and Fridays, 3:30 PM - 5:00 PM", 15,
    ["ava@mergington.edu", "mia@mergington.edu"]⟩,
   ⟨"Art Club",
    "Explore your creativity through painting and drawing",
    "Thursdays, 3:30 PM - 5:00 PM", 15,
    ["amelia@mergington.edu", "harper@mergington.edu"]⟩,
   ⟨"Drama Club",
    "Act, direct, and produce plays and performances",
    "Mondays and Wednesdays, 4:00 PM - 5:30 PM", 20,
    ["ella@mergington.edu", "scarlett@mergington.edu"]⟩,
   ⟨"Math Club",
    "Solve challenging problems and participate in math competitions",
    "Tuesdays, 3:30 PM - 4:30 PM", 10,
    ["james@mergington.edu", "benjamin@mergington.edu"]⟩,
   ⟨"Debate Team",
    "Develop public speaking and argumentation skills",
    "Fridays, 4:00 PM - 5:30 PM", 12,
    ["charlotte@mergington.edu", "henry@mergington.edu"]⟩]

/-- Seeding one dict entry (src/src/app.py lines 92-105): insert the
`Activity` (the engine assigns the next id), commit, then insert one
`Enrollment` per listed participant email, commit.  In the running
program this loop is dead code — see `_seed_db_if_empty` — but it is
the faithful translation of the loop body. -/
def seedOne (s : Store) (d : SeedEntry) : Store :=
  let act : Activity :=
    ⟨s.nextActivityId, d.name, d.description, d.schedule, d.max_participants⟩
  let s1 : Store :=
    { s with activities := s.activities ++ [act],
             nextActivityId := s.nextActivityId + 1 }
  d.participants.foldl
    (fun t email =>
      { t with enrollments := t.enrollments ++ [⟨t.nextEnrollmentId, act.id, email⟩],
               nextEnrollmentId := t.nextEnrollmentId + 1 })
    s1

/-- How `session.exec("SELECT COUNT(*) FROM activity")` (src/src/app.py
line 90) behaves, by installed SQLAlchemy major version; the repository
pins neither, so both are modelled. -/
inductive SqlAlchemyBehavior where
  | raisesOnRawString
  | returnsRow
deriving Repr, DecidableEq

/-- Python semantics of line 91's `count == 0` under SQLAlchemy 1.4:
`.one()` returns a `Row` (a tuple-like holding the count), and a
tuple-like compared with `==` to an `int` is always `False`, whatever
the wrapped value is. -/
def rowEqualsInt (_row : List Nat) (_k : Nat) : Bool := false

/-- `_seed_db_if_empty` of src/src/app.py (lines 88-105) as it actually
executes.  Under SQLAlchemy 2.x the raw-string `exec` on line 90 raises
`ArgumentError` before anything else runs; under 1.4 it yields a `Row`,
line 91's `count == 0` is the always-false Row-to-int comparison, and
the seed loop is skipped.  Either way no row is ever inserted. -/
def _seed_db_if_empty (v : SqlAlchemyBehavior) (s : Store) :
    Except PyException Unit × Store :=
  match v with
  | .raisesOnRawString =>
    (.error (.argumentError
      ("Textual SQL expression should be explicitly declared as text")), s)
  | .returnsRow =>
    if rowEqualsInt [s.activities.length] 0 then
      (.ok (), _seed_activities.foldl seedOne s)
    else
      (.ok (), s)

/-- `signup_for_activity` of src/src/app.py (lines 136-154) as it
actually executes.  The first statement of the handler body (line 140)
applies `select`; the name is resolved against `app_module_globals`,
fails, and raises `NameError` before any validation or insert.  The
404 / 400 / 400 / ok pipeline of lines 140-154 is translated below the
resolution check and is unreachable in the program as written. -/
def signup_for_activity (activity_name email : String) (s : Store) :
    Except PyException String × Store :=
  if app_module_globals.contains ("select") then
    match s.activities.find? (fun a => a.name == activity_name) with
    | none => (.error (.http ⟨404, "Activity not found"⟩), s)
    | some act =>
      let enrolls := s.enrollments.filter (fun e => e.activity_id == act.id)
      if enrolls.any (fun e => e.email == email) then
        (.error (.http ⟨400, "Student is already signed up"⟩), s)
      else if enrolls.length ≥ act.max_participants then
        (.error (.http ⟨400, "Activity is full"⟩), s)
      else
        (.ok ("Signed up " ++ email ++ " for " ++ activity_name),
         { s with
             enrollments := s.enrollments ++ [⟨s.nextEnrollmentId, act.id, email⟩],
             nextEnrollmentId := s.nextEnrollmentId + 1 })
  else
    (.error (.nameError ("select")), s)

/-- `unregister_from_activity` of src/src/app.py (lines 157-171) as it
actually executes: line 161 applies the unresolved name `select`, so
every call raises `NameError` before the lookup, the existence check,
or the delete.  The 404 / 400 / ok pipeline of lines 161-171 is
translated below the resolution check and is unreachable. -/
def unregister_from_activity (activity_name email : String) (s : Store) :
    Except PyException String × Store :=
  if app_module_globals.contains ("select") then
    match s.activities.find? (fun a => a.name == activity_name) with
    | none => (.error (.http ⟨404, "Activity not found"⟩), s)
    | some act =>
      match s.enrollments.find?
          (fun e => e.activity_id == act.id && e.email == email) with
      | none =>
        (.error (.http ⟨400, "Student is not signed up for this activity"⟩), s)
      | some enroll =>
        (.ok ("Unregistered " ++ email ++ " from " ++ activity_name),
         { s with enrollments := s.enrollments.eraseP (fun e => e.id == enroll.id) })
  else
    (.error (.nameError ("select")), s)

/-- The store states the running program can actually reach: a fresh
database, then any sequence of startup-seeding runs (under either
library behavior) and signup / unregister requests. -/
inductive Reachable : Store → Prop where
  | init : Reachable emptyStore
  | startup (v : SqlAlchemyBehavior) {s : Store} :
      Reachable s → Reachable (_seed_db_if_empty v s).2
  | signup (n e : String) {s : Store} :
      Reachable s → Reachable (signup_for_activity n e s).2
  | unregister (n e : String) {s : Store} :
      Reachable s → Reachable (unregister_from_activity n e s).2

theorem signup_raises_eq (n e : String) (s : Store) :
    signup_for_activity n e s = (.error (.nameError ("select")), s) := rfl

theorem unregister_raises_eq (n e : String) (s : Store) :
    unregister_from_activity n e s = (.error (.nameError ("select")), s) := rfl

theorem seed_state_eq (v : SqlAlchemyBehavior) (s : Store) :
    (_seed_db_if_empty v s).2 = s := by
  cases v <;> rfl

/-- C1: code_bug.  The claim presumes states reachable from a seeded
store, with signup's capacity check keeping every roster within
`max_participants`.  The program as written never produces such a
state: startup seeding inserts nothing (raw-string `exec`), and every
signup or unregister raises `NameError` on the unresolved `select`
before its checks run — so the only reachable store is the empty one
and the claimed guarded system never executes. -/
theorem reachable_store_stays_empty (s : Store) (h : Reachable s) :
    s = emptyStore := by
  induction h with
  | init => rfl
  | startup v _ ih => rw [seed_state_eq, ih]
  | signup n e _ ih => rw [signup_raises_eq, ih]
  | unregister n e _ ih => rw [unregister_raises_eq, ih]

theorem reachable_store_stays_empty_witness :
    (signup_for_activity ("Chess Club") ("new@mergington.edu")
      emptyStore).2 = emptyStore :=
  reachable_store_stays_empty _
    (Reachable.signup ("Chess Club") ("new@mergington.edu") Reachable.init)

/-- C2: code_bug.  The claim describes a 404 / 400 / 400 / ok
validation pipeline; instead every signup request, on every store and
input, raises `NameError` on the unimported name `select`
(src/src/app.py line 140) and leaves the store untouched — FastAPI
reports HTTP 500, never the claimed NotFound or Conflict responses. -/
theorem signup_always_raises_nameError (s : Store) (n e : String) :
    signup_for_activity n e s = (.error (.nameError ("select")), s) :=
  signup_raises_eq n e s

/-- C3: code_bug.  The schema half of the claim is accurate — no column
of the `enrollment` table carries a uniqueness constraint — but the
service layer never enforces pair uniqueness either: a duplicate signup
(here the seeded spec scenario "Chess Club" / michael) crashes with
`NameError` on every store instead of the claimed Conflict
rejection. -/
theorem no_unique_constraint_and_no_service_check :
    (∀ f ∈ Enrollment.schemaFields, FieldConstraint.uniqueCol ∉ f.2) ∧
    ∀ s : Store,
      signup_for_activity ("Chess Club") ("michael@mergington.edu") s =
        (.error (.nameError ("select")), s) :=
  ⟨by decide, fun s => signup_raises_eq ("Chess Club") ("michael@mergington.edu") s⟩

theorem no_unique_constraint_and_no_service_check_witness :
    FieldConstraint.uniqueCol ∉ [FieldConstraint.indexedCol] ∧
    signup_for_activity ("Chess Club") ("michael@mergington.edu")
        emptyStore = (.error (.nameError ("select")), emptyStore) :=
  ⟨no_unique_constraint_and_no_service_check.1
      ("email", [FieldConstraint.indexedCol]) (by decide),
   no_unique_constraint_and_no_service_check.2 emptyStore⟩

/-- C4: code_bug.  The round-trip scenario is unsatisfiable: no signup
from any store ever succeeds — both signup and unregister raise
`NameError` on the unresolved `select` — so there is no successful
signup for the paired unregister to undo. -/
theorem roundtrip_scenario_unsatisfiable (s : Store) (n e : String) :
    (signup_for_activity n e s).1 = .error (.nameError ("select")) ∧
    (unregister_from_activity n e s).1 = .error (.nameError ("select")) :=
  ⟨by rw [signup_raises_eq], by rw [unregister_raises_eq]⟩

/-- C5: code_bug.  The claimed failure modes (NotFound, Conflict,
BadRequest) never occur: every signup and unregister call fails with
the `NameError` crash instead.  The store is indeed left exactly as it
was — but only because the crash precedes any database write, not
because the modelled validation rejections execute. -/
theorem every_request_fails_without_mutating (s : Store) (n e : String) :
    (signup_for_activity n e s).2 = s ∧
    (unregister_from_activity n e s).2 = s ∧
    (signup_for_activity n e s).1 = .error (.nameError ("select")) ∧
    (unregister_from_activity n e s).1 = .error (.nameError ("select")) :=
  ⟨by rw [signup_raises_eq], by rw [unregister_raises_eq],
   by rw [signup_raises_eq], by rw [unregister_raises_eq]⟩

/-- C6: code_bug.  The claim describes a 404 / 400 / ok pipeline ending
in a row deletion; instead every unregister request, on every store and
input, raises `NameError` on the unimported name `select`
(src/src/app.py line 161) and deletes nothing — HTTP 500, never the
claimed NotFound or BadRequest responses or the confirmation. -/
theorem unregister_always_raises_nameError (s : Store) (n e : String) :
    unregister_from_activity n e s = (.error (.nameError ("select")), s) :=
  unregister_raises_eq n e s

/-- C7: confirmed, degenerately.  Running the startup seeding leaves
every store — in particular any store holding at least one activity —
unchanged, and running it twice from the empty store equals running it
once.  This holds not via the intended count-is-zero short-circuit but
because the seeding procedure never inserts anything on any library
behavior (see C8). -/
theorem seeding_idempotent (v : SqlAlchemyBehavior) (s : Store) :
    (_seed_db_if_empty v s).2 = s ∧
    (_seed_db_if_empty v (_seed_db_if_empty v emptyStore).2).2 =
      (_seed_db_if_empty v emptyStore).2 :=
  ⟨seed_state_eq v s, by rw [seed_state_eq, seed_state_eq]⟩

/-- C8: code_bug.  Seeding an empty store inserts nothing at all — not
the claimed 9 activities with 18 enrollments: under SQLAlchemy 2.x the
raw-string count query raises `ArgumentError` and aborts startup, and
under 1.4 the `Row` returned by `.one()` never equals the int 0, so the
insert loop of lines 92-105 is skipped.  The store stays empty. -/
theorem seeding_empty_store_inserts_nothing (v : SqlAlchemyBehavior) :
    ((_seed_db_if_empty v emptyStore).2.activities.length = 0 ∧
     (_seed_db_if_empty v emptyStore).2.enrollments.length = 0) ∧
    (v = .raisesOnRawString →
      (_seed_db_if_empty v emptyStore).1 =
        .error (.argumentError
          ("Textual SQL expression should be explicitly declared as text"))) := by
  cases v
  · exact ⟨⟨rfl, rfl⟩, fun _ => rfl⟩
  · refine ⟨⟨rfl, rfl⟩, fun hc => ?_⟩
    cases hc

theorem seeding_empty_store_inserts_nothing_witness :
    (_seed_db_if_empty .raisesOnRawString emptyStore).1 =
      .error (.argumentError
        ("Textual SQL expression should be explicitly declared as text")) :=
  (seeding_empty_store_inserts_nothing .raisesOnRawString).2 rfl

/-- C9: confirmed, degenerately.  No request ever creates, mutates or
deletes an Activity row: signup and unregister crash on the unresolved
`select` before touching the database, so the whole store — in
particular the activity table with every field of every row — is
unchanged by every call, and only Enrollment rows could ever have been
inserted or deleted (in fact none are). -/
theorem activities_never_modified (s : Store) (n e : String) :
    (signup_for_activity n e s).2.activities = s.activities ∧
    (unregister_from_activity n e s).2.activities = s.activities ∧
    (signup_for_activity n e s).2 = s ∧
    (unregister_from_activity n e s).2 = s :=
  ⟨by rw [signup_raises_eq], by rw [unregister_raises_eq],
   by rw [signup_raises_eq], by rw [unregister_raises_eq]⟩

/-- C10: code_bug.  No case-sensitivity behavior is observable: signup
and unregister raise `NameError` on every input — exact-case names,
case-variant names, and case-variant emails alike — so the claimed
ok-versus-404 distinction between "Chess Club" and "chess club", and
the simultaneous enrollment of two emails differing only in case, never
happen. -/
theorem no_observable_case_behavior (s : Store) (e : String) :
    (signup_for_activity ("Chess Club") e s).1 =
        .error (.nameError ("select")) ∧
    (signup_for_activity ("chess club") e s).1 =
        .error (.nameError ("select")) ∧
    (unregister_from_activity ("CHESS CLUB") e s).1 =
        .error (.nameError ("select")) :=
  ⟨by rw [signup_raises_eq], by rw [signup_raises_eq],
   by rw [unregister_raises_eq]⟩

end MergingtonApi
